import Mathlib

/-!
Shallow embedding of the Tuya EV Charger to Home Assistant bridge
(src/main.py) and verification of its specification claims.

Modelling conventions:
* Python values are embedded as `PyVal`; Python floats are embedded as
  rationals; Python dicts are embedded as insertion-ordered association
  lists with string keys (all dict keys reached by this program are
  strings).
* Fallible Python code is embedded in `Except PyErr`.
* Serialization (json.dumps, str) of published payloads is carried
  structurally by `Payload`; no claim inspects the serialized text.
-/

namespace Gocean

/-- Embedded Python values. Floats are modelled as rationals. -/
inductive PyVal where
  | none
  | bool (b : Bool)
  | int (i : Int)
  | float (q : ℚ)
  | str (s : String)
  | list (xs : List PyVal)
  | dict (es : List (String × PyVal))

/-- A Python dict with string keys, as an insertion-ordered association list. -/
abbrev Dict := List (String × PyVal)

/-- Lookup in a dict: value of the first entry with the given key. -/
def dictGet? (d : Dict) (k : String) : Option PyVal :=
  (d.find? (fun p => p.1 == k)).map (·.2)

/-- Python dict assignment d[k] = v: replaces the value in place when the
key is present, otherwise appends the new entry (insertion order). -/
def dictSet (d : Dict) (k : String) (v : PyVal) : Dict :=
  if d.any (fun p => p.1 == k) then d.map (fun p => if p.1 == k then (k, v) else p)
  else d ++ [(k, v)]

/-- isinstance(v, (int, float, str, bool)) (src/main.py lines 70 and 100). -/
def isScalar : PyVal → Bool
  | .bool _ => true
  | .int _ => true
  | .float _ => true
  | .str _ => true
  | _ => false

/-- isinstance(v, dict). -/
def isDict : PyVal → Bool
  | .dict _ => true
  | _ => false

/-- isinstance(value, (int, float)) together with the numeric content.
Python bool is a subtype of int, so booleans are numeric (True = 1,
False = 0). -/
def numVal? : PyVal → Option ℚ
  | .bool b => some (if b then 1 else 0)
  | .int i => some (i : ℚ)
  | .float q => some q
  | _ => Option.none

-- --- Scaling rules (src/main.py lines 14-18) ---

/-- SCALE_MAP: raw-to-human unit conversion factors per field code. -/
def SCALE_MAP : List (String × ℚ) :=
  [("energy_charge", 1/100), ("forward_energy_total", 1/100), ("a_current", 1/10)]

/-- Membership test and lookup code in SCALE_MAP. -/
def scaleFactor? (code : String) : Option ℚ :=
  (SCALE_MAP.find? (fun p => p.1 == code)).map (·.2)

/-- Round-half-to-even on rationals (the tie-breaking rule of Python round). -/
def roundHalfEven (q : ℚ) : ℤ :=
  let f := ⌊q⌋
  if q - f < 1/2 then f
  else if (1:ℚ)/2 < q - f then f + 1
  else if f % 2 = 0 then f else f + 1

/-- Models Python round(x, 3) on the rational embedding of floats. -/
def pyRound3 (q : ℚ) : ℚ := (roundHalfEven (q * 1000) : ℚ) / 1000

/-- apply_scaling (src/main.py lines 20-23): if the code has a registered
factor and the value is numeric, round(value * factor, 3); otherwise the
value unchanged. The Python result of a numeric multiplication by a float
factor is a float. -/
def apply_scaling (code : String) (value : PyVal) : PyVal :=
  match scaleFactor? code, numVal? value with
  | some factor, some q => .float (pyRound3 (q * factor))
  | _, _ => value

-- --- String helpers (list-based models of the Python string operations) ---

/-- Python substring test pat in s, on character lists. -/
def subList (pat : List Char) : List Char → Bool
  | [] => pat.isEmpty
  | c :: cs => pat.isPrefixOf (c :: cs) || subList pat cs

/-- Python pat in s for strings. -/
def strContains (s pat : String) : Bool := subList pat.data s.data

/-- Python s.startswith(pre). -/
def strStartsWith (s pre : String) : Bool := pre.data.isPrefixOf s.data

/-- Python s.endswith(suf). -/
def strEndsWith (s suf : String) : Bool := suf.data.isSuffixOf s.data

/-- Python s.lower(); the field codes of this program are ASCII, where
Char.toLower agrees with Python lower(). -/
def pyLower (s : String) : String := String.mk (s.data.map Char.toLower)

/-- Python s.replace(" ", "_") (src/main.py line 71): a one-character
pattern replacement is a character map. -/
def replaceSpaces (s : String) : String :=
  String.mk (s.data.map (fun ch => if ch = ' ' then '_' else ch))

-- --- Unit and device-class inference (src/main.py lines 43-60) ---

/-- Temperature patterns (line 46), on the lowered code. -/
def tempPat (c : String) : Bool :=
  strContains c "temp_current" || strContains c "temperature" ||
    strStartsWith c "temp" || strEndsWith c "_temp"

/-- Current patterns (line 48). -/
def currentPat (c : String) : Bool :=
  strContains c "current" || strContains c "amp" || strContains c "i_"

/-- Voltage patterns (line 50). -/
def voltagePat (c : String) : Bool :=
  strContains c "voltage" || strContains c "volt" || strContains c "u_"

/-- Power patterns (line 52). -/
def powerPat (c : String) : Bool :=
  strContains c "power" || strContains c "watt" || strContains c "p_"

/-- Energy patterns (line 54). -/
def energyPat (c : String) : Bool :=
  strContains c "energy" || strContains c "kwh" || strContains c "consumption"

/-- Frequency patterns (line 56). -/
def frequencyPat (c : String) : Bool :=
  strContains c "frequency" || strContains c "hz"

/-- Percentage patterns (line 58). -/
def percentPat (c : String) : Bool :=
  strContains c "percent" || strEndsWith c "_pct"

/-- guess_unit_and_device_class (src/main.py lines 43-60): ordered pattern
rules on the lowercased code, first match wins, no match yields both None.
The temperature unit string reproduces the source bytes exactly. -/
def guess_unit_and_device_class (code : String) : Option String × Option String :=
  let c := pyLower code
  if tempPat c then (some "Â°C", some "temperature")
  else if currentPat c then (some "A", Option.none)
  else if voltagePat c then (some "V", some "voltage")
  else if powerPat c then (some "W", some "power")
  else if energyPat c then (some "kWh", some "energy")
  else if frequencyPat c then (some "Hz", Option.none)
  else if percentPat c then (some "%", Option.none)
  else (Option.none, Option.none)

-- --- Python str() ---

mutual

/-- Models Python str(). Floats are embedded as rationals, so float
rendering is the rational rendering; containers render by structure
without Python repr quoting. No verified claim inspects the rendered
text of a float or container. -/
def pyStr : PyVal → String
  | .none => "None"
  | .bool true => "True"
  | .bool false => "False"
  | .int i => toString i
  | .float q => toString q
  | .str s => s
  | .list xs => "[" ++ String.intercalate ", " (pyStrList xs) ++ "]"
  | .dict es => "\x7b" ++ String.intercalate ", " (pyStrEntries es) ++ "\x7d"

/-- str() of the elements of a list. -/
def pyStrList : List PyVal → List String
  | [] => []
  | x :: xs => pyStr x :: pyStrList xs

/-- str() of the entries of a dict. -/
def pyStrEntries : List (String × PyVal) → List String
  | [] => []
  | (k, v) :: es => (k ++ ": " ++ pyStr v) :: pyStrEntries es

end

-- --- Status normalization (src/main.py lines 88-116) ---

/-- Embedded Python exceptions. -/
inductive PyErr where
  | attributeError (receiver : PyVal) (attr : String)

/-- Models Python item.get(key) (default None): returns the stored value
or None on a dict, raises AttributeError on any other receiver. -/
def pyGetMethod (item : PyVal) (k : String) : Except PyErr PyVal :=
  match item with
  | .dict es => .ok ((dictGet? es k).getD .none)
  | v => .error (.attributeError v "get")

/-- Body of the result-list loop of flatten_cloud_status (src/main.py
lines 93-98): reads code and value from the record, skips records whose
code is None, stores out[str(code)] = value. -/
def cloudResultStep (out : Dict) (item : PyVal) : Except PyErr Dict := do
  let code ← pyGetMethod item "code"
  let value ← pyGetMethod item "value"
  match code with
  | .none => pure out
  | c => pure (dictSet out (pyStr c) value)

/-- Body of the top-level scalar loop of flatten_cloud_status (src/main.py
lines 99-101): copies scalar entries other than result. Dict keys are
strings in this embedding, so str(k) = k. -/
def cloudScalarStep (out : Dict) (kv : String × PyVal) : Dict :=
  if kv.1 != "result" && isScalar kv.2 then dictSet out kv.1 kv.2 else out

/-- flatten_cloud_status (src/main.py lines 88-105). -/
def flatten_cloud_status (status : PyVal) : Except PyErr Dict :=
  match status with
  | .dict es =>
      let step1 : Except PyErr Dict :=
        match dictGet? es "result" with
        | some (.list items) => items.foldlM cloudResultStep ([] : Dict)
        | _ => Except.ok ([] : Dict)
      step1.map (fun out0 =>
        let out1 : Dict := es.foldl cloudScalarStep out0
        out1.map (fun kv => (kv.1, apply_scaling kv.1 kv.2)))
  | _ => Except.ok []

/-- flatten_local_status (src/main.py lines 107-116): renames each
data-point index k of the dps mapping to dps_k, then applies scaling.
Its only operations are shape tests, iteration and dict writes, none of
which can raise, so it is total. -/
def flatten_local_status (data : PyVal) : Dict :=
  match data with
  | .dict es =>
      match dictGet? es "dps" with
      | some (.dict dps) =>
          let out := dps.foldl (fun out kv => dictSet out ("dps_" ++ kv.1) kv.2) ([] : Dict)
          out.map (fun kv => (kv.1, apply_scaling kv.1 kv.2))
      | _ => []
  | _ => []

-- --- MQTT publication model ---

/-- Serialized form of a published payload, carried structurally:
jsonDump models json.dumps(v), strOf models str(v). -/
inductive Payload where
  | jsonDump (v : PyVal)
  | strOf (v : PyVal)

/-- One MQTT publish call: topic, payload, retain flag. -/
structure Msg where
  topic : String
  payload : Payload
  retain : Bool

/-- The value topic {base}/{field} (src/main.py lines 143 and 198). -/
def value_topic (base k : String) : String := base ++ "/" ++ k

/-- The discovery config topic (src/main.py line 85). -/
def discovery_topic (device_id key : String) : String :=
  "homeassistant/sensor/" ++ device_id ++ "_" ++ key ++ "/config"

/-- The fixed device-identity block (src/main.py lines 63-68). -/
def dev_block (device_id model manufacturer : String) : PyVal :=
  .dict [("ids", .list [.str device_id]), ("name", .str "Gocean EV Charger"),
         ("mf", .str manufacturer), ("mdl", .str model)]

/-- The entries of one discovery config payload (src/main.py lines 74-84).
The source guards the optional entries with Python truthiness of the
inferred strings; every inferred unit and class is a non-empty literal, so
presence coincides with truthiness. -/
def discovery_payload_entries (base device_id model manufacturer key : String) : Dict :=
  let base0 : Dict :=
    [("name", .str ("Gocean " ++ key)),
     ("uniq_id", .str (device_id ++ "_" ++ key)),
     ("stat_t", .str (value_topic base key)),
     ("avty_t", .str (base ++ "/availability")),
     ("dev", dev_block device_id model manufacturer)]
  let ud := guess_unit_and_device_class key
  let p1 := match ud.1 with
    | some u => dictSet base0 "unit_of_meas" (.str u)
    | Option.none => base0
  match ud.2 with
  | some d => dictSet p1 "dev_cla" (.str d)
  | Option.none => p1

/-- publish_discovery (src/main.py lines 62-86): one retained config
message per scalar field; non-scalar fields are skipped. The key is
str(code).replace(" ", "_"); field codes are strings in this embedding. -/
def publish_discovery (base device_id model : String) (items : Dict)
    (manufacturer : String) : List Msg :=
  items.filterMap (fun kv =>
    if isScalar kv.2 then
      let key := replaceSpaces kv.1
      some ⟨discovery_topic device_id key,
            .jsonDump (.dict (discovery_payload_entries base device_id model manufacturer key)),
            true⟩
    else Option.none)

/-- The per-field value publication loop (src/main.py lines 141-143 of
run_cloud; lines 196-198 of run_local are character-identical): one
non-retained message per field, json-serialized for containers and
stringified otherwise. -/
def publish_values (base : String) (flat : Dict) : List Msg :=
  flat.map (fun kv =>
    let payload := match kv.2 with
      | .dict _ => Payload.jsonDump kv.2
      | .list _ => Payload.jsonDump kv.2
      | v => Payload.strOf v
    ⟨value_topic base kv.1, payload, false⟩)

-- --- Options and the discovery condition ---

/-- Python truthiness of an embedded value. -/
def pyTruthy : PyVal → Bool
  | .none => false
  | .bool b => b
  | .int i => i != 0
  | .float q => q != 0
  | .str s => !s.isEmpty
  | .list xs => !xs.isEmpty
  | .dict es => !es.isEmpty

/-- opt.get(key, default). -/
def optGet (opt : Dict) (k : String) (default : PyVal) : PyVal :=
  (dictGet? opt k).getD default

/-- The discovery gate evaluated by the poll loops every cycle
(src/main.py line 135 in run_cloud and line 190 in run_local):
opt.get("mqtt_discovery", True) and opt.get("force_discovery_on_start", True). -/
def discovery_condition (opt : Dict) : Bool :=
  pyTruthy (optGet opt "mqtt_discovery" (.bool true)) &&
    pyTruthy (optGet opt "force_discovery_on_start" (.bool true))

/-- The publish calls of one successful run_cloud cycle after the status
has been flattened to flat (src/main.py lines 135-143). -/
def cloud_cycle_msgs (opt : Dict) (base device_id model : String) (flat : Dict) : List Msg :=
  (if discovery_condition opt then publish_discovery base device_id model flat "Gocean" else [])
    ++ publish_values base flat

/-- The publish calls of one successful run_local cycle after the status
has been flattened to flat (src/main.py lines 190-198). -/
def local_cycle_msgs (opt : Dict) (base device_id model : String) (flat : Dict) : List Msg :=
  (if discovery_condition opt then publish_discovery base device_id model flat "Gocean" else [])
    ++ publish_values base flat

/-- Whether run_cloud publishes discovery in poll cycle n (0-based): the
loop body re-evaluates the same state-independent condition every
iteration (src/main.py lines 135-136), so the cycle index is unused. -/
def cloud_discovery_published_at (opt : Dict) (_n : ℕ) : Bool :=
  discovery_condition opt

/-- The discovery schedule as the specification states it (spec section
4.6 step 3): enabled and (first cycle or forced every cycle). Stated from
the words of the spec, for comparison against the code behavior. -/
def spec_discovery_published_at (opt : Dict) (n : ℕ) : Bool :=
  pyTruthy (optGet opt "mqtt_discovery" (.bool true)) &&
    (n == 0 || pyTruthy (optGet opt "force_discovery_on_start" (.bool true)))

-- --- Local transport version negotiation (src/main.py lines 148-187) ---

/-- The candidate protocol versions of run_local (src/main.py line 160):
[3.4, 3.3] when probing is enabled, else [3.3]. -/
def probe_version_list (probe : Bool) : List ℚ :=
  if probe then [34/10, 33/10] else [33/10]

/-- One pass over the candidate versions (src/main.py lines 178-185):
tries each candidate in order; fetch v = true models _try_local_status
succeeding at protocol version v. Returns the attempted versions in
order and the version bound by the first success. -/
def try_versions (fetch : ℚ → Bool) : List ℚ → List ℚ × Option ℚ
  | [] => ([], Option.none)
  | v :: rest =>
      if fetch v then ([v], some v)
      else
        let r := try_versions fetch rest
        (v :: r.1, r.2)

/-- The state run_local keeps across poll cycles for negotiation:
current_version (src/main.py line 173), assigned on a successful fetch
and read only for logging. -/
structure LocalLoopState where
  current_version : Option ℚ

/-- current_version = None before the first cycle (src/main.py line 173). -/
def init_local_state : LocalLoopState := ⟨Option.none⟩

/-- One iteration of the run_local while-loop negotiation (src/main.py
lines 176-187): the candidate list it scans does not depend on the loop
state. Returns the new state, the attempted versions and whether a fetch
succeeded. -/
def local_cycle (fetch : ℚ → Bool) (versions : List ℚ) (st : LocalLoopState) :
    LocalLoopState × List ℚ × Bool :=
  let r := try_versions fetch versions
  match r.2 with
  | some v => (⟨some v⟩, r.1, true)
  | Option.none => (st, r.1, false)

/-- The loop state before cycle n, for a per-cycle fetch outcome map. -/
def local_state_at (fetch : ℕ → ℚ → Bool) (versions : List ℚ) : ℕ → LocalLoopState
  | 0 => init_local_state
  | n + 1 => (local_cycle (fetch n) versions (local_state_at fetch versions n)).1

/-- The versions run_local attempts a fetch with during cycle n. -/
def local_attempts_at (fetch : ℕ → ℚ → Bool) (versions : List ℚ) (n : ℕ) : List ℚ :=
  (local_cycle (fetch n) versions (local_state_at fetch versions n)).2.1

/-- The scenario fetch of the claim: 3.4 always fails, 3.3 always succeeds,
in every cycle. -/
def fetch33 : ℕ → ℚ → Bool := fun _ v => v == 33/10

/-- The items of the result entry of a cloud status dict, when the entry
is present and is a list; the empty list otherwise. -/
def resultItems (es : Dict) : List PyVal :=
  match dictGet? es "result" with
  | some (.list xs) => xs
  | _ => []

-- --- Helper lemmas ---

lemma strExt {a b : String} (h : a.data = b.data) : a = b := by
  cases a; cases b; exact congrArg String.mk h

lemma strDataAppend (a b : String) : (a ++ b).data = a.data ++ b.data := by
  cases a; cases b; rfl

lemma strPrefix_inj {p a b : String} (h : p ++ a = p ++ b) : a = b := by
  have hd := congrArg String.data h
  rw [strDataAppend, strDataAppend] at hd
  exact strExt (List.append_cancel_left hd)

lemma roundHalfEven_intCast (n : ℤ) : roundHalfEven (n : ℚ) = n := by
  unfold roundHalfEven
  simp [Int.floor_intCast]

lemma pyRound3_eq {q : ℚ} (n : ℤ) (h : q * 1000 = (n : ℚ)) :
    pyRound3 q = (n : ℚ) / 1000 := by
  unfold pyRound3
  rw [h, roundHalfEven_intCast]

lemma apply_scaling_eval (code : String) (v : PyVal) (factor qv : ℚ) (n : ℤ)
    (h1 : scaleFactor? code = some factor) (h2 : numVal? v = some qv)
    (h3 : qv * factor * 1000 = (n : ℚ)) :
    apply_scaling code v = .float ((n : ℚ) / 1000) := by
  unfold apply_scaling
  rw [h1, h2]
  exact congrArg PyVal.float (pyRound3_eq n h3)

lemma dictSet_fresh {d : Dict} {k : String} (v : PyVal) (h : ∀ p ∈ d, p.1 ≠ k) :
    dictSet d k v = d ++ [(k, v)] := by
  have ha : d.any (fun p => p.1 == k) = false := by
    rw [List.any_eq_false]
    intro p hp
    simpa using h p hp
  rw [dictSet, ha]
  simp

lemma replaceSpaces_data (s : String) :
    (replaceSpaces s).data = s.data.map (fun ch => if ch = ' ' then '_' else ch) := rfl

lemma space_not_mem_replaceSpaces (s : String) : ' ' ∉ (replaceSpaces s).data := by
  rw [replaceSpaces_data]
  intro hmem
  obtain ⟨c, _, hc⟩ := List.mem_map.mp hmem
  by_cases h : c = ' ' <;> simp [h] at hc

lemma replaceSpaces_of_no_space {s : String} (h : ' ' ∉ s.data) : replaceSpaces s = s := by
  apply strExt
  rw [replaceSpaces_data]
  calc s.data.map (fun ch => if ch = ' ' then '_' else ch)
      = s.data.map id := List.map_congr_left (fun c hc => by
        have : c ≠ ' ' := fun hcs => h (hcs ▸ hc)
        simp [this])
    _ = s.data := List.map_id s.data

end Gocean

namespace Gocean

/-- C5: apply_scaling is a pure function of its arguments; when the code
has a registered factor and the value is numeric it returns
round(value * factor, 3), and otherwise (unregistered code or
non-numeric value) it returns the value unchanged. -/
theorem c5_apply_scaling : ∀ (code : String) (value : PyVal),
    (∀ factor q : ℚ, scaleFactor? code = some factor → numVal? value = some q →
      apply_scaling code value = .float (pyRound3 (q * factor))) ∧
    (scaleFactor? code = Option.none → apply_scaling code value = value) ∧
    (numVal? value = Option.none → apply_scaling code value = value) := by
  intro code value
  refine ⟨?_, ?_, ?_⟩
  · intro factor q h1 h2
    unfold apply_scaling
    rw [h1, h2]
  · intro h
    cases hv : numVal? value <;> simp [apply_scaling, h, hv]
  · intro h
    cases hc : scaleFactor? code <;> simp [apply_scaling, h, hc]

/-- Witness for C5 at concrete inputs: the registered code a_current with
the numeric value 55, an unregistered code, and a non-numeric value. -/
theorem c5_apply_scaling_witness :
    apply_scaling "a_current" (.int 55) = .float (pyRound3 (((55:ℤ):ℚ) * (1/10))) ∧
    apply_scaling "nope" (.int 5) = .int 5 ∧
    apply_scaling "a_current" (.str "x") = .str "x" :=
  ⟨(c5_apply_scaling "a_current" (.int 55)).1 (1/10) ((55:ℤ):ℚ) rfl rfl,
   (c5_apply_scaling "nope" (.int 5)).2.1 rfl,
   (c5_apply_scaling "a_current" (.str "x")).2.2 rfl⟩

/-- C9: apply_scaling treats booleans as numeric (bool is a subtype of int
in Python): for each of the three registered codes, True scales to
round(1 * factor, 3) as a float (1/100 resp. 1/10) and False scales to
float 0, rather than passing the boolean through unchanged. -/
theorem c9_bool_scaling :
    apply_scaling "energy_charge" (.bool true) = .float (1/100) ∧
    apply_scaling "energy_charge" (.bool false) = .float 0 ∧
    apply_scaling "forward_energy_total" (.bool true) = .float (1/100) ∧
    apply_scaling "forward_energy_total" (.bool false) = .float 0 ∧
    apply_scaling "a_current" (.bool true) = .float (1/10) ∧
    apply_scaling "a_current" (.bool false) = .float 0 := by
  refine ⟨?_, ?_, ?_, ?_, ?_, ?_⟩
  · rw [apply_scaling_eval "energy_charge" (.bool true) (1/100) 1 10 rfl rfl (by norm_num)]
    exact congrArg _ (by norm_num)
  · rw [apply_scaling_eval "energy_charge" (.bool false) (1/100) 0 0 rfl rfl (by norm_num)]
    exact congrArg _ (by norm_num)
  · rw [apply_scaling_eval "forward_energy_total" (.bool true) (1/100) 1 10 rfl rfl
      (by norm_num)]
    exact congrArg _ (by norm_num)
  · rw [apply_scaling_eval "forward_energy_total" (.bool false) (1/100) 0 0 rfl rfl
      (by norm_num)]
    exact congrArg _ (by norm_num)
  · rw [apply_scaling_eval "a_current" (.bool true) (1/10) 1 100 rfl rfl (by norm_num)]
    exact congrArg _ (by norm_num)
  · rw [apply_scaling_eval "a_current" (.bool false) (1/10) 0 0 rfl rfl (by norm_num)]
    exact congrArg _ (by norm_num)

/-- C3: unit and class inference evaluates its pattern groups in the fixed
order temperature, current, voltage, power, energy, frequency, percentage
on the lowercased code; the first matching group decides the result, a
code matching both a temperature and a current pattern resolves to
temperature, and no match yields (None, None). -/
theorem c3_inference_order : ∀ code : String,
    (tempPat (pyLower code) = true →
      guess_unit_and_device_class code = (some "Â°C", some "temperature")) ∧
    (tempPat (pyLower code) = true ∧ currentPat (pyLower code) = true →
      guess_unit_and_device_class code = (some "Â°C", some "temperature")) ∧
    (tempPat (pyLower code) = false ∧ currentPat (pyLower code) = true →
      guess_unit_and_device_class code = (some "A", Option.none)) ∧
    (tempPat (pyLower code) = false ∧ currentPat (pyLower code) = false ∧
        voltagePat (pyLower code) = true →
      guess_unit_and_device_class code = (some "V", some "voltage")) ∧
    (tempPat (pyLower code) = false ∧ currentPat (pyLower code) = false ∧
        voltagePat (pyLower code) = false ∧ powerPat (pyLower code) = true →
      guess_unit_and_device_class code = (some "W", some "power")) ∧
    (tempPat (pyLower code) = false ∧ currentPat (pyLower code) = false ∧
        voltagePat (pyLower code) = false ∧ powerPat (pyLower code) = false ∧
        energyPat (pyLower code) = true →
      guess_unit_and_device_class code = (some "kWh", some "energy")) ∧
    (tempPat (pyLower code) = false ∧ currentPat (pyLower code) = false ∧
        voltagePat (pyLower code) = false ∧ powerPat (pyLower code) = false ∧
        energyPat (pyLower code) = false ∧ frequencyPat (pyLower code) = true →
      guess_unit_and_device_class code = (some "Hz", Option.none)) ∧
    (tempPat (pyLower code) = false ∧ currentPat (pyLower code) = false ∧
        voltagePat (pyLower code) = false ∧ powerPat (pyLower code) = false ∧
        energyPat (pyLower code) = false ∧ frequencyPat (pyLower code) = false ∧
        percentPat (pyLower code) = true →
      guess_unit_and_device_class code = (some "%", Option.none)) ∧
    (tempPat (pyLower code) = false ∧ currentPat (pyLower code) = false ∧
        voltagePat (pyLower code) = false ∧ powerPat (pyLower code) = false ∧
        energyPat (pyLower code) = false ∧ frequencyPat (pyLower code) = false ∧
        percentPat (pyLower code) = false →
      guess_unit_and_device_class code = (Option.none, Option.none)) := by
  intro code
  unfold guess_unit_and_device_class
  refine ⟨fun h => by simp [h],
          fun h => by simp [h.1],
          fun h => by simp [h.1, h.2],
          fun h => by simp [h.1, h.2.1, h.2.2],
          fun h => by simp [h.1, h.2.1, h.2.2.1, h.2.2.2],
          fun h => by simp [h.1, h.2.1, h.2.2.1, h.2.2.2.1, h.2.2.2.2],
          fun h => by simp [h.1, h.2.1, h.2.2.1, h.2.2.2.1, h.2.2.2.2.1, h.2.2.2.2.2],
          fun h => by
            simp [h.1, h.2.1, h.2.2.1, h.2.2.2.1, h.2.2.2.2.1, h.2.2.2.2.2.1,
              h.2.2.2.2.2.2],
          fun h => by
            simp [h.1, h.2.1, h.2.2.1, h.2.2.2.1, h.2.2.2.2.1, h.2.2.2.2.2.1,
              h.2.2.2.2.2.2]⟩

/-- Witness for C3: the code i_temp matches both a temperature pattern
(it ends with _temp) and a current pattern (it contains i_) and resolves
to temperature; the code xyz matches nothing and yields (None, None). -/
theorem c3_inference_order_witness :
    guess_unit_and_device_class "i_temp" = (some "Â°C", some "temperature") ∧
    guess_unit_and_device_class "xyz" = (Option.none, Option.none) :=
  ⟨(c3_inference_order "i_temp").2.1 ⟨rfl, rfl⟩,
   (c3_inference_order "xyz").2.2.2.2.2.2.2.2 ⟨rfl, rfl, rfl, rfl, rfl, rfl, rfl⟩⟩

/-- C10: the discovery payload advertises the state topic built from the
space-replaced field code while values are published to the topic built
from the raw code, so the two topics differ exactly when the code
contains a space; for space-free codes they are equal. -/
theorem c10_topic_mismatch :
    ∀ (base device_id model manufacturer code : String),
    dictGet? (discovery_payload_entries base device_id model manufacturer
        (replaceSpaces code)) "stat_t"
      = some (.str (value_topic base (replaceSpaces code))) ∧
    (' ' ∈ code.data → value_topic base (replaceSpaces code) ≠ value_topic base code) ∧
    (' ' ∉ code.data → value_topic base (replaceSpaces code) = value_topic base code) := by
  intro base device_id model manufacturer code
  refine ⟨?_, ?_, ?_⟩
  · unfold discovery_payload_entries
    rcases guess_unit_and_device_class (replaceSpaces code) with ⟨u, d⟩
    cases u <;> cases d <;> simp [dictSet, dictGet?]
  · intro hmem heq
    have h2 : replaceSpaces code = code := strPrefix_inj (p := base ++ "/") (by
      rw [show base ++ "/" ++ replaceSpaces code = value_topic base (replaceSpaces code) from rfl,
        show base ++ "/" ++ code = value_topic base code from rfl]
      exact heq)
    exact space_not_mem_replaceSpaces code (by rw [h2]; exact hmem)
  · intro hnot
    unfold value_topic
    rw [replaceSpaces_of_no_space hnot]

/-- Witness for C10: with base b, the code a b yields the discovery state
topic b/a_b but the value topic b/a b, while the space-free code ab
yields identical topics. -/
theorem c10_topic_mismatch_witness :
    value_topic "b" (replaceSpaces "a b") ≠ value_topic "b" "a b" ∧
    value_topic "b" (replaceSpaces "ab") = value_topic "b" "ab" :=
  ⟨(c10_topic_mismatch "b" "d" "m" "mf" "a b").2.1 (by decide),
   (c10_topic_mismatch "b" "d" "m" "mf" "ab").2.2 (by decide)⟩

end Gocean

namespace Gocean

lemma flatten_local_status_eq (es : Dict) :
    flatten_local_status (.dict es)
      = match dictGet? es "dps" with
        | some (.dict dps) =>
            (dps.foldl (fun out kv => dictSet out ("dps_" ++ kv.1) kv.2) ([] : Dict)).map
              (fun kv => (kv.1, apply_scaling kv.1 kv.2))
        | _ => [] := rfl

lemma flatten_cloud_status_eq (es : Dict) :
    flatten_cloud_status (.dict es)
      = (match dictGet? es "result" with
         | some (.list items) => items.foldlM cloudResultStep ([] : Dict)
         | _ => Except.ok ([] : Dict)).map (fun out0 =>
          (es.foldl cloudScalarStep out0).map
            (fun kv : String × PyVal => (kv.1, apply_scaling kv.1 kv.2))) := rfl

lemma cloudResultStep_dict (out : Dict) (es : Dict) :
    cloudResultStep out (.dict es)
      = match (dictGet? es "code").getD .none with
        | .none => Except.ok out
        | c => Except.ok (dictSet out (pyStr c) ((dictGet? es "value").getD .none)) := rfl

lemma cloudResultStep_ok_of_isDict {item : PyVal} (out : Dict) (h : isDict item = true) :
    ∃ out2 : Dict, cloudResultStep out item = Except.ok out2 := by
  cases item <;> simp [isDict] at h
  case dict es =>
    rw [cloudResultStep_dict]
    cases hc : (dictGet? es "code").getD .none <;> exact ⟨_, rfl⟩

lemma foldlM_cloudResultStep_ok (items : List PyVal) :
    ∀ out : Dict, (∀ item ∈ items, isDict item = true) →
    ∃ res : Dict, items.foldlM cloudResultStep out = Except.ok res := by
  induction items with
  | nil => exact fun out _ => ⟨out, rfl⟩
  | cons hd tl ih =>
    intro out h
    obtain ⟨o2, ho⟩ := cloudResultStep_ok_of_isDict out (h hd (List.mem_cons_self hd tl))
    obtain ⟨res, hres⟩ := ih o2 (fun item hi => h item (List.mem_cons_of_mem hd hi))
    exact ⟨res, by rw [List.foldlM_cons, ho]; simpa using hres⟩

lemma foldl_dictSet_dps (m : List (String × PyVal)) :
    ∀ acc : Dict, (m.map Prod.fst).Nodup →
    (∀ kv ∈ m, ∀ p ∈ acc, p.1 ≠ "dps_" ++ kv.1) →
    m.foldl (fun out kv => dictSet out ("dps_" ++ kv.1) kv.2) acc
      = acc ++ m.map (fun kv => ("dps_" ++ kv.1, kv.2)) := by
  induction m with
  | nil => simp
  | cons hd tl ih =>
    intro acc hnd hfresh
    have hset : dictSet acc ("dps_" ++ hd.1) hd.2 = acc ++ [("dps_" ++ hd.1, hd.2)] :=
      dictSet_fresh hd.2 (fun p hp => hfresh hd (List.mem_cons_self hd tl) p hp)
    have hhd : hd.1 ∉ tl.map Prod.fst := (List.nodup_cons.mp (by simpa using hnd)).1
    rw [List.foldl_cons, hset,
      ih (acc ++ [("dps_" ++ hd.1, hd.2)]) (List.nodup_cons.mp (by simpa using hnd)).2 ?_]
    · simp
    · intro kv hkv p hp
      rcases List.mem_append.mp hp with hacc | hone
      · exact hfresh kv (List.mem_cons_of_mem hd hkv) p hacc
      · rcases List.mem_singleton.mp hone with rfl
        intro heq
        exact hhd (strPrefix_inj (p := "dps_") heq ▸ List.mem_map_of_mem Prod.fst hkv)

end Gocean

namespace Gocean

/-- C4 counterexample: a result entry that is a list containing a
non-record element is malformed input on which flatten_cloud_status does
not return an empty snapshot but raises AttributeError (int has no
attribute get), because line 94 of src/main.py calls item.get on the
element unguarded. -/
theorem c4_counterexample :
    flatten_cloud_status (.dict [("result", .list [.int 5])])
      = Except.error (.attributeError (.int 5) "get") := rfl

/-- C4 as amended: an absent or non-dict status yields an empty snapshot
from both normalization variants without raising; a dps entry that is not
a mapping yields an empty local snapshot; and flatten_cloud_status cannot
raise as long as every element of a present result list is a record
(dict) - only a non-dict element inside the result list makes it raise. -/
theorem c4_amended :
    (∀ s : PyVal, isDict s = false →
      flatten_cloud_status s = Except.ok [] ∧ flatten_local_status s = []) ∧
    (∀ es : Dict, (∀ m : List (String × PyVal), dictGet? es "dps" ≠ some (.dict m)) →
      flatten_local_status (.dict es) = []) ∧
    (∀ es : Dict, (∀ item ∈ resultItems es, isDict item = true) →
      ∃ out : Dict, flatten_cloud_status (.dict es) = Except.ok out) := by
  refine ⟨?_, ?_, ?_⟩
  · intro s h
    cases s <;> simp [isDict] at h ⊢ <;> exact ⟨rfl, rfl⟩
  · intro es h
    rcases hd : dictGet? es "dps" with _ | v
    · rw [flatten_local_status_eq, hd]
    · cases v
      case dict m => exact absurd hd (h m)
      all_goals rw [flatten_local_status_eq, hd]
  · intro es h
    rcases hr : dictGet? es "result" with _ | v
    · exact ⟨_, by rw [flatten_cloud_status_eq, hr]; rfl⟩
    · cases v
      case list items =>
        have hitems : ∀ item ∈ items, isDict item = true := by
          intro item hi
          exact h item (by rw [resultItems, hr]; exact hi)
        obtain ⟨res, hres⟩ := foldlM_cloudResultStep_ok items [] hitems
        refine ⟨(es.foldl cloudScalarStep res).map
          (fun kv : String × PyVal => (kv.1, apply_scaling kv.1 kv.2)), ?_⟩
        rw [flatten_cloud_status_eq, hr]
        show (items.foldlM cloudResultStep ([] : Dict)).map _ = _
        rw [hres]
        rfl
      all_goals exact ⟨_, by rw [flatten_cloud_status_eq, hr]; rfl⟩

/-- Witness for C4 as amended: None status for both variants, a dps entry
that is a string, and a well-formed result list of one record. -/
theorem c4_amended_witness :
    (flatten_cloud_status PyVal.none = Except.ok [] ∧ flatten_local_status PyVal.none = []) ∧
    flatten_local_status (.dict [("dps", .str "not-a-map")]) = [] ∧
    ∃ out : Dict,
      flatten_cloud_status (.dict [("result", .list [.dict [("code", .str "a"),
        ("value", .int 1)]])]) = Except.ok out :=
  ⟨c4_amended.1 PyVal.none rfl,
   c4_amended.2.1 [("dps", .str "not-a-map")]
     (by intro m hm; simp [dictGet?] at hm),
   c4_amended.2.2 [("result", .list [.dict [("code", .str "a"), ("value", .int 1)]])]
     (by intro item hi; simp [resultItems, dictGet?] at hi; rw [hi]; rfl)⟩

/-- C7 counterexample: a record inside the result list whose code is the
string result contributes a field named result to the normalized
snapshot, contradicting the statement that the key result never appears
as a field in any normalized snapshot. -/
theorem c7_counterexample :
    flatten_cloud_status (.dict [("result", .list [.dict [("code", .str "result"),
        ("value", .int 5)]])])
      = Except.ok [("result", .int 5)] := rfl

/-- C7 as amended: the example input normalizes to a_current scaled to 5.5
and status_extra kept verbatim; the top-level result entry itself is
never copied into the snapshot by the scalar pass; non-scalar top-level
entries are dropped; scalar top-level entries other than result are
copied under their own name; and each record of the result list with a
string code and a value contributes that one field - though a record
whose code is the string result can itself introduce the key result. -/
theorem c7_amended :
    flatten_cloud_status (.dict [("result", .list [.dict [("code", .str "a_current"),
        ("value", .int 55)]]), ("status_extra", .str "ok")])
      = Except.ok [("a_current", .float (11/2)), ("status_extra", .str "ok")] ∧
    (∀ (out : Dict) (v : PyVal), cloudScalarStep out ("result", v) = out) ∧
    (∀ (out : Dict) (k : String) (v : PyVal), isScalar v = false →
      cloudScalarStep out (k, v) = out) ∧
    (∀ (out : Dict) (k : String) (v : PyVal), isScalar v = true → k ≠ "result" →
      cloudScalarStep out (k, v) = dictSet out k v) ∧
    (∀ (out : Dict) (es : Dict) (c : String) (v : PyVal),
      dictGet? es "code" = some (.str c) → dictGet? es "value" = some v →
      cloudResultStep out (.dict es) = Except.ok (dictSet out c v)) := by
  refine ⟨?_, ?_, ?_, ?_, ?_⟩
  · rw [show flatten_cloud_status (.dict [("result", .list [.dict [("code", .str "a_current"),
        ("value", .int 55)]]), ("status_extra", .str "ok")])
      = Except.ok [("a_current", apply_scaling "a_current" (.int 55)),
        ("status_extra", apply_scaling "status_extra" (.str "ok"))] from rfl]
    rw [show apply_scaling "status_extra" (.str "ok") = .str "ok" from rfl]
    rw [apply_scaling_eval "a_current" (.int 55) (1/10) ((55:ℤ):ℚ) 5500 rfl rfl
      (by push_cast; norm_num)]
    have : ((5500:ℤ):ℚ) / 1000 = 11/2 := by norm_num
    rw [this]
  · exact fun out v => rfl
  · intro out k v h
    simp [cloudScalarStep, h]
  · intro out k v h1 h2
    simp [cloudScalarStep, h1, h2]
  · intro out es c v h1 h2
    rw [cloudResultStep_dict, h1, h2]
    rfl

/-- Witness for C7 as amended: a non-scalar value is dropped by the scalar
pass, a scalar value under a key other than result is copied, and a
record with code k and value 2 contributes the field k. -/
theorem c7_amended_witness :
    cloudScalarStep [] ("x", .list []) = [] ∧
    cloudScalarStep [] ("x", .int 1) = dictSet [] "x" (.int 1) ∧
    cloudResultStep [] (.dict [("code", .str "k"), ("value", .int 2)])
      = Except.ok (dictSet [] "k" (.int 2)) :=
  ⟨c7_amended.2.2.1 [] "x" (.list []) rfl,
   c7_amended.2.2.2.1 [] "x" (.int 1) rfl (by decide),
   c7_amended.2.2.2.2 [] [("code", .str "k"), ("value", .int 2)] "k" (.int 2) rfl rfl⟩

/-- C8: local normalization of the dps mapping 1 to 220, 2 to true yields
exactly dps_1 to 220 and dps_2 to true; in general every data-point index
k is renamed to the prefixed code dps_k and passed through apply_scaling
under that renamed code; dps_1 and dps_2 have no registered scaling rule,
so their values pass through unchanged. -/
theorem c8_local_normalization :
    flatten_local_status (.dict [("dps", .dict [("1", .int 220), ("2", .bool true)])])
      = [("dps_1", .int 220), ("dps_2", .bool true)] ∧
    scaleFactor? "dps_1" = Option.none ∧
    scaleFactor? "dps_2" = Option.none ∧
    ∀ (es : Dict) (m : List (String × PyVal)), dictGet? es "dps" = some (.dict m) →
      (m.map Prod.fst).Nodup →
      flatten_local_status (.dict es)
        = m.map (fun kv => ("dps_" ++ kv.1, apply_scaling ("dps_" ++ kv.1) kv.2)) := by
  refine ⟨rfl, rfl, rfl, ?_⟩
  intro es m hd hnd
  rw [flatten_local_status_eq, hd]
  show (m.foldl (fun out kv => dictSet out ("dps_" ++ kv.1) kv.2) ([] : Dict)).map
      (fun kv => (kv.1, apply_scaling kv.1 kv.2)) = _
  rw [foldl_dictSet_dps m [] hnd (by intro kv _ p hp; cases hp)]
  rw [List.nil_append, List.map_map]
  rfl

/-- Witness for C8 at the singleton dps mapping 3 to 7. -/
theorem c8_local_normalization_witness :
    flatten_local_status (.dict [("dps", .dict [("3", .int 7)])])
      = [("3", .int 7)].map (fun kv => ("dps_" ++ kv.1, apply_scaling ("dps_" ++ kv.1) kv.2)) :=
  c8_local_normalization.2.2.2 [("dps", .dict [("3", .int 7)])] [("3", .int 7)] rfl
    (by simp)

end Gocean

namespace Gocean

lemma fetch33_34 (n : ℕ) : fetch33 n (34/10) = false := by
  unfold fetch33
  rw [beq_eq_false_iff_ne]
  norm_num

lemma fetch33_33 (n : ℕ) : fetch33 n (33/10) = true := beq_self_eq_true _

lemma local_cycle_fetch33 (n : ℕ) (st : LocalLoopState) :
    local_cycle (fetch33 n) (probe_version_list true) st
      = (⟨some (33/10)⟩, [34/10, 33/10], true) := by
  show local_cycle (fetch33 n) [34/10, 33/10] st = _
  simp [local_cycle, try_versions, fetch33_34, fetch33_33]

end Gocean

namespace Gocean

/-- C1 counterexample: with candidate versions [3.4, 3.3], 3.4 always
failing and 3.3 always succeeding, cycle 0 binds 3.3 (current_version
becomes 3.3), yet cycle 1 still attempts 3.4 before 3.3 - the attempted
list of cycle 1 is [3.4, 3.3] and contains 3.4, contradicting the claim
that later cycles attempt only 3.3. -/
theorem c1_counterexample :
    local_attempts_at fetch33 (probe_version_list true) 0 = [34/10, 33/10] ∧
    (local_state_at fetch33 (probe_version_list true) 1).current_version = some (33/10) ∧
    local_attempts_at fetch33 (probe_version_list true) 1 = [34/10, 33/10] ∧
    (34:ℚ)/10 ∈ local_attempts_at fetch33 (probe_version_list true) 1 := by
  refine ⟨?_, ?_, ?_, ?_⟩
  · rw [local_attempts_at, local_cycle_fetch33]
  · show (local_cycle (fetch33 0) (probe_version_list true)
      (local_state_at fetch33 (probe_version_list true) 0)).1.current_version = some (33/10)
    rw [local_cycle_fetch33]
  · rw [local_attempts_at, local_cycle_fetch33]
  · rw [local_attempts_at, local_cycle_fetch33]
    exact List.mem_cons_self _ _

/-- C1 as amended: run_local does not cache the bound version for
candidate selection - the versions a cycle attempts are a function of
the candidate list alone, independent of the loop state; in the scenario
where 3.4 always fails and 3.3 always succeeds, every cycle attempts
[3.4, 3.3], and current_version records 3.3 after every cycle. -/
theorem c1_amended :
    ∀ (n : ℕ) (fetch : ℚ → Bool) (versions : List ℚ) (st : LocalLoopState),
    (local_cycle fetch versions st).2.1 = (try_versions fetch versions).1 ∧
    local_attempts_at fetch33 (probe_version_list true) n = [34/10, 33/10] ∧
    (local_state_at fetch33 (probe_version_list true) (n+1)).current_version
      = some (33/10) := by
  intro n fetch versions st
  refine ⟨?_, ?_, ?_⟩
  · rcases h : (try_versions fetch versions).2 with _ | v <;> simp [local_cycle, h]
  · rw [local_attempts_at, local_cycle_fetch33]
  · show (local_cycle (fetch33 n) (probe_version_list true)
      (local_state_at fetch33 (probe_version_list true) n)).1.current_version = some (33/10)
    rw [local_cycle_fetch33]

/-- C2 counterexample: with mqtt_discovery true and
force_discovery_on_start false, the spec schedule publishes discovery on
the first cycle but the code publishes none - the cycle emits only value
messages, because the code conjoins the two flags instead of testing
first-cycle-or-forced. -/
theorem c2_counterexample :
    spec_discovery_published_at
      [("mqtt_discovery", .bool true), ("force_discovery_on_start", .bool false)] 0 = true ∧
    cloud_discovery_published_at
      [("mqtt_discovery", .bool true), ("force_discovery_on_start", .bool false)] 0 = false ∧
    cloud_cycle_msgs [("mqtt_discovery", .bool true), ("force_discovery_on_start", .bool false)]
        "b" "d" "m" [("a", .int 1)]
      = publish_values "b" [("a", .int 1)] ∧
    local_cycle_msgs [("mqtt_discovery", .bool true), ("force_discovery_on_start", .bool false)]
        "b" "d" "m" [("a", .int 1)]
      = publish_values "b" [("a", .int 1)] :=
  ⟨rfl, rfl, rfl, rfl⟩

/-- C2 as amended: the poll loops publish discovery in a cycle exactly
when mqtt_discovery and force_discovery_on_start are both truthy (each
defaulting to true); the condition is identical in every cycle, with no
first-cycle special case, so with discovery enabled but forcing disabled
discovery is never published, not even on the first cycle. -/
theorem c2_amended :
    ∀ (opt : Dict) (n m : ℕ) (base device_id model : String) (flat : Dict),
    cloud_discovery_published_at opt n = discovery_condition opt ∧
    cloud_discovery_published_at opt n = cloud_discovery_published_at opt m ∧
    (discovery_condition opt = true →
      cloud_cycle_msgs opt base device_id model flat
        = publish_discovery base device_id model flat "Gocean" ++ publish_values base flat ∧
      local_cycle_msgs opt base device_id model flat
        = publish_discovery base device_id model flat "Gocean" ++ publish_values base flat) ∧
    (discovery_condition opt = false →
      cloud_cycle_msgs opt base device_id model flat = publish_values base flat ∧
      local_cycle_msgs opt base device_id model flat = publish_values base flat) := by
  intro opt n m base device_id model flat
  refine ⟨rfl, rfl, fun h => ⟨?_, ?_⟩, fun h => ⟨?_, ?_⟩⟩
  · simp [cloud_cycle_msgs, h]
  · simp [local_cycle_msgs, h]
  · simp [cloud_cycle_msgs, h]
  · simp [local_cycle_msgs, h]

/-- Witness for C2 as amended: with the empty option dict both defaults
are true and a cycle publishes discovery followed by values; with
forcing disabled the cycle publishes only values. -/
theorem c2_amended_witness :
    cloud_cycle_msgs [] "b" "d" "m" []
      = publish_discovery "b" "d" "m" [] "Gocean" ++ publish_values "b" [] ∧
    local_cycle_msgs [] "b" "d" "m" []
      = publish_discovery "b" "d" "m" [] "Gocean" ++ publish_values "b" [] ∧
    cloud_cycle_msgs [("mqtt_discovery", .bool true), ("force_discovery_on_start", .bool false)]
      "b" "d" "m" [] = publish_values "b" [] ∧
    local_cycle_msgs [("mqtt_discovery", .bool true), ("force_discovery_on_start", .bool false)]
      "b" "d" "m" [] = publish_values "b" [] :=
  ⟨((c2_amended [] 0 0 "b" "d" "m" []).2.2.1 rfl).1,
   ((c2_amended [] 0 0 "b" "d" "m" []).2.2.1 rfl).2,
   ((c2_amended [("mqtt_discovery", .bool true), ("force_discovery_on_start", .bool false)]
      0 0 "b" "d" "m" []).2.2.2 rfl).1,
   ((c2_amended [("mqtt_discovery", .bool true), ("force_discovery_on_start", .bool false)]
      0 0 "b" "d" "m" []).2.2.2 rfl).2⟩

/-- C6: every discovery configuration message carries retain = true and
every per-field value message carries retain = false, and each poll
cycle of both the cloud and the local loop publishes exactly the
discovery messages (when the discovery gate holds) followed by the value
messages. -/
theorem c6_retain_flags :
    ∀ (opt : Dict) (base device_id model manufacturer : String) (items flat : Dict),
    (publish_discovery base device_id model items manufacturer).all
      (fun msg => msg.retain) = true ∧
    (publish_values base flat).all (fun msg => !msg.retain) = true ∧
    cloud_cycle_msgs opt base device_id model flat
      = (if discovery_condition opt then publish_discovery base device_id model flat "Gocean"
         else []) ++ publish_values base flat ∧
    local_cycle_msgs opt base device_id model flat
      = (if discovery_condition opt then publish_discovery base device_id model flat "Gocean"
         else []) ++ publish_values base flat := by
  intro opt base device_id model manufacturer items flat
  refine ⟨?_, ?_, rfl, rfl⟩
  · rw [List.all_eq_true]
    intro msg hmsg
    obtain ⟨kv, _, hf⟩ := List.mem_filterMap.mp hmsg
    by_cases hs : isScalar kv.2 = true
    · simp only [hs, if_true, Option.some.injEq] at hf
      subst hf
      rfl
    · simp [hs] at hf
  · rw [List.all_eq_true]
    intro msg hmsg
    rw [publish_values] at hmsg
    obtain ⟨kv, _, rfl⟩ := List.mem_map.mp hmsg
    rfl

end Gocean
